/-
Verification of go-webpage-to-email against its specification.

The repository contains two near-duplicate variants of the same daemon:
`cmd/daemon/daemon.go` (embedded below in namespace `DaemonGo`) and an
unnamed second source file (namespace `Part000`).  Both poll a web page,
extract link entries matched by a CSS selector, diff them against a cache
by exact URL string equality, and email newly discovered links.

Shallow embedding conventions:
  * The goquery selector engine, net/http, net/url and net/smtp are
    external collaborators.  A parsed document is represented by the list
    of elements its relevant selector matches (`List Elem`); URL parsing
    and reference resolution are abstract functions supplied in the tick
    environment; the SMTP outcome is an oracle `String → Bool` whose
    result the code only logs.
  * An element carries the observations the Go code makes of it:
    `href` (`s.Attr("href")`, absent = `none`), `text` (`s.Text()`),
    `titleText` (`s.Find(conf.Title).Text()`, `none` when that selector
    matches zero elements), and `innerHtml` (`s.Html()`, `none` when the
    renderer errors).
  * Fallible Go calls become `Option`; a function that logs and returns
    without sending becomes `none`.
-/
import Mathlib

set_option linter.unusedVariables false

/-- `CachedLink` from the source: a watched link on the page. -/
structure CachedLink where
  title : String
  url : String
deriving Repr, DecidableEq

/-- `ScrapeConfig` from the source (JSON configuration).  The part_000
variant additionally carries `smtp_server`; the daemon.go variant hardcodes
`127.0.0.1:25`, so the extra field is harmless for it. -/
structure ScrapeConfig where
  tag : String
  monitorURL : String
  monitorLinks : String
  title : String
  filter : String
  email : String
  delay : Int
  smtpServer : String
deriving Repr, DecidableEq

/-- Abstraction of a goquery element as observed by the Go code. -/
structure Elem where
  href : Option String
  text : String
  titleText : Option String
  innerHtml : Option String
deriving Repr, DecidableEq

/-- Title extraction for one matched element (body of the `Each` closure in
`check`): empty `conf.Title` selector means the element's own text;
otherwise the sub-selector's text, defaulting to `"Untitled"` when the
sub-selector matches nothing. -/
def linkTitle (conf : ScrapeConfig) (s : Elem) : String :=
  if conf.title = "" then s.text
  else
    match s.titleText with
    | none => "Untitled"
    | some t => t

/-- One iteration of the `results.Each` loop in `check` (identical in both
variants).  The accumulator is the pair `(curr, news)`.  An element without
an `href` attribute is logged and skipped; otherwise an entry is appended
to `curr`, and to `news` unless some previous entry has the same URL. -/
def checkStep (conf : ScrapeConfig) (prev : List CachedLink)
    (acc : List CachedLink × List CachedLink) (s : Elem) :
    List CachedLink × List CachedLink :=
  match s.href with
  | none => acc
  | some url =>
    let entry : CachedLink := ⟨linkTitle conf s, url⟩
    let curr := acc.1 ++ [entry]
    if prev.any (fun prevEntry => entry.url == prevEntry.url) then
      (curr, acc.2)
    else
      (curr, acc.2 ++ [entry])

/-- The whole `results.Each(...)` loop of `check`, starting from empty
`curr` and `news`. -/
def checkEach (conf : ScrapeConfig) (prev : List CachedLink)
    (results : List Elem) : List CachedLink × List CachedLink :=
  results.foldl (checkStep conf prev) ([], [])

/-- The entry the loop body builds for a matched element, `none` when the
element has no `href` attribute. -/
def entryOf (conf : ScrapeConfig) (s : Elem) : Option CachedLink :=
  match s.href with
  | none => none
  | some url => some ⟨linkTitle conf s, url⟩

/-- An entry of the current extraction is new when no previous entry has
the same URL (exact, case-sensitive string equality). -/
def isNew (prev : List CachedLink) (e : CachedLink) : Bool :=
  !(prev.any (fun prevEntry => e.url == prevEntry.url))

/-- One `sendPage` invocation made by the main loop, as observed by the
embedding: the subject passed in, the resolved target URL, the message the
call composed (`none` when it logged and returned before `smtp.SendMail`),
and whether the SMTP send succeeded. -/
structure SendAttempt where
  subject : String
  url : String
  message : Option String
  delivered : Bool
deriving Repr, DecidableEq

/-- Observable outcome of one iteration of the `for` loop in `main`:
the cache and `notfirst` flag going into the next iteration, the
`sendPage` invocations made, whether `check` was reached (`polled`), and
whether `time.Sleep` was reached (`slept`). -/
structure TickResult where
  cache : List CachedLink
  notfirst : Bool
  sends : List SendAttempt
  polled : Bool
  slept : Bool
deriving Repr, DecidableEq

namespace DaemonGo

/-- Outcome of `get` + `goquery.NewDocumentFromReader` in `daemon.go`,
where the caller still sees the HTTP status code: `err` is a transport
error from `client.Do`; otherwise a status and the parse result (`none`
when `NewDocumentFromReader` fails).  `α` is what the caller reads off the
parsed document (the list of elements its selector matches). -/
inductive GetResult (α : Type) where
  | err : GetResult α
  | resp (status : Nat) (body : Option α) : GetResult α
deriving Repr, DecidableEq

/-- `check` from `daemon.go`: transport errors, non-200 statuses, parse
failures and an empty selector match all keep the previous cache and
report no news; otherwise the `Each` loop runs.  `res` stands for the
outcome of `get(conf.MonitorURL)` with the document abstracted to
`doc.Find(conf.MonitorLinks)`. -/
def check (conf : ScrapeConfig) (res : GetResult (List Elem))
    (prev : List CachedLink) : List CachedLink × List CachedLink :=
  match res with
  | .err => (prev, [])
  | .resp status body =>
    if status ≠ 200 then (prev, [])
    else
      match body with
      | none => (prev, [])
      | some results =>
        if results.length = 0 then (prev, [])
        else checkEach conf prev results

/-- `sendPage` from `daemon.go`, up to the point where the message is
handed to `smtp.SendMail`; returns the composed message, or `none` when
the function logs and returns before composing one.  `res` stands for
`get(url)` with the parsed document abstracted to `doc.Find(filter)`.
On a 200 response with a non-empty filter match, the parts list starts
with the page URL and collects each matched element's inner HTML (elements
whose HTML extraction errors are logged and skipped); on an empty filter
match, and on a 302 response, the content is a placeholder anchor. -/
def sendPage (email title url filter : String)
    (res : GetResult (List Elem)) : Option String :=
  match res with
  | .err => none
  | .resp status body =>
    if status = 200 then
      match body with
      | none => none
      | some results =>
        let content :=
          if results.length = 0 then
            "<a href=\"" ++ url ++ "\">" ++ url ++ "</a>"
          else
            let parts := results.foldl
              (fun parts s =>
                match s.innerHtml with
                | none => parts
                | some html => parts ++ [html]) [url]
            String.intercalate "<hr>" parts
        some ("Subject " ++ title ++ "\nTo: " ++ email ++
          "\nMIME-version: 1.0;\nContent-Type: text/html;\n\n" ++ content)
    else if status = 302 then
      some ("Subject " ++ title ++ "\nTo: " ++ email ++
        "\nMIME-version: 1.0;\nContent-Type: text/html;\n\n" ++
        ("<a href=\"" ++ url ++ "\">" ++ url ++ "</a>"))
    else
      none

/-- The external world one iteration of `daemon.go`'s `main` loop runs
against.  `U` is the abstract type of parsed `net/url` values; `parseURL`
is `url.Parse`, `resolve` is `base.ResolveReference(u).String()`,
`fetch` is the monitor-page fetch consumed by `check`, `pageFetch` gives
the fetch outcome for each resolved link URL, and `smtpOk` is the
`smtp.SendMail` outcome for a given message. -/
structure TickEnv (U : Type) where
  parseURL : String → Option U
  resolve : U → U → String
  fetch : GetResult (List Elem)
  pageFetch : String → GetResult (List Elem)
  smtpOk : String → Bool

/-- Body of the notification loop `for _, n := range news` in
`daemon.go`'s `main`: parse the entry URL (skip the entry when that
fails), resolve it against the base, and call `sendPage` with subject
`conf.Tag + " | " + n.Title`. -/
def sendStep {U : Type} (conf : ScrapeConfig) (env : TickEnv U) (base : U)
    (acc : List SendAttempt) (n : CachedLink) : List SendAttempt :=
  match env.parseURL n.url with
  | none => acc
  | some u =>
    let target := env.resolve base u
    let subject := conf.tag ++ " | " ++ n.title
    let msg := sendPage conf.email subject target conf.filter (env.pageFetch target)
    acc ++ [{ subject := subject, url := target, message := msg,
              delivered := match msg with | none => false | some m => env.smtpOk m }]

/-- One iteration of the infinite `for` loop in `daemon.go`'s `main`.
When `url.Parse(conf.MonitorURL)` fails the iteration `continue`s before
calling `check` and before reaching `time.Sleep` (`polled = false`,
`slept = false`).  Otherwise `cache, news = check(...)`; when `news` is
non-empty and `notfirst` is unset the entries are only logged (priming);
when `notfirst` is set each entry is sent via the notification loop. -/
def tick {U : Type} (conf : ScrapeConfig) (env : TickEnv U)
    (cache : List CachedLink) (notfirst : Bool) : TickResult :=
  match env.parseURL conf.monitorURL with
  | none =>
    { cache := cache, notfirst := notfirst, sends := [], polled := false,
      slept := false }
  | some base =>
    let res := check conf env.fetch cache
    let news := res.2
    if news.length ≠ 0 then
      if !notfirst then
        { cache := res.1, notfirst := true, sends := [], polled := true,
          slept := true }
      else
        { cache := res.1, notfirst := notfirst,
          sends := news.foldl (sendStep conf env base) [], polled := true,
          slept := true }
    else
      { cache := res.1, notfirst := notfirst, sends := [], polled := true,
        slept := true }

/-- The failed-poll condition for `daemon.go`'s `check`: transport error,
non-200 status, parse failure, or an empty link-selector match. -/
def pollFails : GetResult (List Elem) → Bool
  | .err => true
  | .resp status body =>
    status != 200 ||
      (match body with
       | none => true
       | some results => results.isEmpty)

/-- The `SendAttempt` the notification loop produces for one new entry
(`none` when `url.Parse(n.URL)` fails and the entry is skipped). -/
def sendOf {U : Type} (conf : ScrapeConfig) (env : TickEnv U) (base : U)
    (n : CachedLink) : Option SendAttempt :=
  match env.parseURL n.url with
  | none => none
  | some u =>
    let target := env.resolve base u
    let subject := conf.tag ++ " | " ++ n.title
    let msg := sendPage conf.email subject target conf.filter (env.pageFetch target)
    some { subject := subject, url := target, message := msg,
           delivered := match msg with | none => false | some m => env.smtpOk m }

end DaemonGo

namespace Part000

/-- `check` from the part_000 variant: its `get` already folds transport
errors, non-200 statuses, charset errors and parse failures into a single
error (`none` here), so `check` only distinguishes error, empty match, and
the `Each` loop.  `doc?` stands for `get(conf.MonitorURL)` with the
document abstracted to `doc.Find(conf.MonitorLinks)`. -/
def check (conf : ScrapeConfig) (doc? : Option (List Elem))
    (prev : List CachedLink) : List CachedLink × List CachedLink :=
  match doc? with
  | none => (prev, [])
  | some results =>
    if results.length = 0 then (prev, [])
    else checkEach conf prev results

/-- A linked page as `sendPage` in part_000 observes it: the elements
matched by `doc.Find(conf.Filter)` and the result of `doc.Html()`
(`none` when rendering errors). -/
structure PageDoc where
  filterMatches : List Elem
  fullHtml : Option String
deriving Repr, DecidableEq

/-- `sendPage` from the part_000 variant, up to the point where the
message is handed to `smtp.SendMail`; returns the composed message, or
`none` when the fetch of the linked page fails.  `content` starts empty;
on an empty filter match it falls back to the full document HTML (staying
empty if that extraction errors); otherwise it joins the matched
elements' inner HTML fragments with `"<hr>"` (elements whose HTML
extraction errors are logged and skipped). -/
def sendPage (link : CachedLink) (conf : ScrapeConfig)
    (doc? : Option PageDoc) : Option String :=
  match doc? with
  | none => none
  | some doc =>
    let content :=
      if doc.filterMatches.length = 0 then
        match doc.fullHtml with
        | none => ""
        | some html => html
      else
        String.intercalate "<hr>"
          (doc.filterMatches.foldl
            (fun partials s =>
              match s.innerHtml with
              | none => partials
              | some html => partials ++ [html]) [])
    some ("From: gw2e\nSubject: " ++ link.title ++ "\nTo: " ++ conf.email ++
      "\nMIME-version: 1.0;\nContent-Type: text/html; charset=utf-8\n\n" ++
      link.url ++ "<hr>" ++ content)

/-- The external world one iteration of part_000's `main` loop runs
against; like `DaemonGo.TickEnv` except that `get` already folds every
failure into `none` and a fetched linked page carries filter matches plus
the full document HTML. -/
structure TickEnv (U : Type) where
  parseURL : String → Option U
  resolve : U → U → String
  fetch : Option (List Elem)
  pageFetch : String → Option PageDoc
  smtpOk : String → Bool

/-- Body of the notification loop `for _, n := range news` in part_000's
`main`: parse the entry URL (skip the entry when that fails), then build
`link := CachedLink{Title: conf.Tag + " | " + n.Title, URL: resolved}` and
call `sendPage(&link, &conf)`. -/
def sendStep {U : Type} (conf : ScrapeConfig) (env : TickEnv U) (base : U)
    (acc : List SendAttempt) (n : CachedLink) : List SendAttempt :=
  match env.parseURL n.url with
  | none => acc
  | some u =>
    let link : CachedLink :=
      { title := conf.tag ++ " | " ++ n.title, url := env.resolve base u }
    let msg := sendPage link conf (env.pageFetch link.url)
    acc ++ [{ subject := link.title, url := link.url, message := msg,
              delivered := match msg with | none => false | some m => env.smtpOk m }]

/-- One iteration of the infinite `for` loop in part_000's `main`.  The
structure is identical to `DaemonGo.tick`: a failed
`url.Parse(conf.MonitorURL)` `continue`s before `check` and before
`time.Sleep`; otherwise the news are logged (priming) or sent. -/
def tick {U : Type} (conf : ScrapeConfig) (env : TickEnv U)
    (cache : List CachedLink) (notfirst : Bool) : TickResult :=
  match env.parseURL conf.monitorURL with
  | none =>
    { cache := cache, notfirst := notfirst, sends := [], polled := false,
      slept := false }
  | some base =>
    let res := check conf env.fetch cache
    let news := res.2
    if news.length ≠ 0 then
      if !notfirst then
        { cache := res.1, notfirst := true, sends := [], polled := true,
          slept := true }
      else
        { cache := res.1, notfirst := notfirst,
          sends := news.foldl (sendStep conf env base) [], polled := true,
          slept := true }
    else
      { cache := res.1, notfirst := notfirst, sends := [], polled := true,
        slept := true }

/-- The failed-poll condition for part_000's `check`: any `get` failure,
or an empty link-selector match. -/
def pollFails : Option (List Elem) → Bool
  | none => true
  | some results => results.isEmpty

/-- The `SendAttempt` the notification loop produces for one new entry
(`none` when `url.Parse(n.URL)` fails and the entry is skipped). -/
def sendOf {U : Type} (conf : ScrapeConfig) (env : TickEnv U) (base : U)
    (n : CachedLink) : Option SendAttempt :=
  match env.parseURL n.url with
  | none => none
  | some u =>
    let link : CachedLink :=
      { title := conf.tag ++ " | " ++ n.title, url := env.resolve base u }
    let msg := sendPage link conf (env.pageFetch link.url)
    some { subject := link.title, url := link.url, message := msg,
           delivered := match msg with | none => false | some m => env.smtpOk m }

end Part000

/-- Split a character sequence at newline characters. -/
def splitLines : List Char → List (List Char)
  | [] => [[]]
  | c :: rest =>
    match splitLines rest with
    | [] => [[c]]
    | l :: ls => if c = '\n' then [] :: l :: ls else (c :: l) :: ls

/-- `true` when some line of `msg` starts with `name` — the message
contains a header of that name. -/
def hasHeader (msg name : String) : Bool :=
  (splitLines msg.toList).any (fun line => name.toList.isPrefixOf line)

/-- `true` when `pat` occurs as a contiguous substring of the character
sequence. -/
def containsChars (pat : List Char) : List Char → Bool
  | [] => pat.isPrefixOf []
  | c :: rest => pat.isPrefixOf (c :: rest) || containsChars pat rest

/-! ### Concrete sample data (used to instantiate theorems with
hypotheses) -/

/-- A sample configuration (empty title selector). -/
def conf0 : ScrapeConfig :=
  ⟨"tag", "http://m/", "a.item", "", "div", "r@example.org", 5, "127.0.0.1:25"⟩

/-- Sample link element `/p/1`. -/
def e1 : Elem := ⟨some "/p/1", "One", none, none⟩

/-- Sample link element `/p/2`. -/
def e2 : Elem := ⟨some "/p/2", "Two", none, none⟩

/-- Sample link element `/p/3`. -/
def e3 : Elem := ⟨some "/p/3", "Three", none, none⟩

/-- Sample element matched by a link selector but lacking `href`. -/
def e0 : Elem := ⟨none, "NoHref", none, none⟩

/-- Sample content element with inner HTML. -/
def eH : Elem := ⟨none, "x", none, some "<p>x</p>"⟩

/-- Sample fetched linked page for the part_000 variant. -/
def pd0 : Part000.PageDoc := ⟨[eH], some "<html>full</html>"⟩

/-- Sample daemon.go tick environment: URL parsing always succeeds (URLs
are modelled as their own strings, resolution is concatenation), the
monitor page yields `e1`/`e2`, linked pages yield `eH`, SMTP succeeds. -/
def envd0 : DaemonGo.TickEnv String :=
  ⟨fun s => some s, fun base u => base ++ u,
   .resp 200 (some [e1, e2]), fun _ => .resp 200 (some [eH]), fun _ => true⟩

/-- Sample daemon.go environment whose monitor fetch fails. -/
def envdErr : DaemonGo.TickEnv String :=
  ⟨fun s => some s, fun base u => base ++ u,
   .err, fun _ => .err, fun _ => true⟩

/-- Sample daemon.go environment where `url.Parse` always fails. -/
def envdNoParse : DaemonGo.TickEnv String :=
  ⟨fun _ => none, fun base u => base ++ u,
   .resp 200 (some [e1, e2]), fun _ => .resp 200 (some [eH]), fun _ => true⟩

/-- Sample daemon.go environment where the link selector matches only an
element without `href`. -/
def envdNoHref : DaemonGo.TickEnv String :=
  ⟨fun s => some s, fun base u => base ++ u,
   .resp 200 (some [e0]), fun _ => .resp 200 (some [eH]), fun _ => true⟩

/-- Sample part_000 tick environment, mirroring `envd0`. -/
def envp0 : Part000.TickEnv String :=
  ⟨fun s => some s, fun base u => base ++ u,
   some [e1, e2], fun _ => some pd0, fun _ => true⟩

/-- Sample part_000 environment whose monitor fetch fails. -/
def envpErr : Part000.TickEnv String :=
  ⟨fun s => some s, fun base u => base ++ u,
   none, fun _ => none, fun _ => true⟩

/-- Sample part_000 environment where `url.Parse` always fails. -/
def envpNoParse : Part000.TickEnv String :=
  ⟨fun _ => none, fun base u => base ++ u,
   some [e1, e2], fun _ => some pd0, fun _ => true⟩

/-- Sample part_000 environment where the link selector matches only an
element without `href`. -/
def envpNoHref : Part000.TickEnv String :=
  ⟨fun s => some s, fun base u => base ++ u,
   some [e0], fun _ => some pd0, fun _ => true⟩

/-- An SMTP oracle that fails exactly for messages mentioning `/p/2`. -/
def smtpFail2 : String → Bool :=
  fun m => !(containsChars "/p/2".toList m.toList)

/-- Sample daemon.go environment with three new links where the SMTP send
of the second one fails. -/
def envd3 : DaemonGo.TickEnv String :=
  ⟨fun s => some s, fun base u => base ++ u,
   .resp 200 (some [e1, e2, e3]), fun _ => .resp 200 (some [eH]), smtpFail2⟩

/-- Sample part_000 environment with three new links where the SMTP send
of the second one fails. -/
def envp3 : Part000.TickEnv String :=
  ⟨fun s => some s, fun base u => base ++ u,
   some [e1, e2, e3], fun _ => some pd0, smtpFail2⟩

/-! ### Characterization of the extraction loop -/

/-- The `Each` loop appends, for each element that has an `href`, its entry
to `curr`, and to `news` exactly when no previous entry shares its URL. -/
theorem checkStep_foldl (conf : ScrapeConfig) (prev : List CachedLink)
    (results : List Elem) (acc : List CachedLink × List CachedLink) :
    results.foldl (checkStep conf prev) acc
      = (acc.1 ++ results.filterMap (entryOf conf),
         acc.2 ++ (results.filterMap (entryOf conf)).filter (isNew prev)) := by
  induction results generalizing acc with
  | nil => simp
  | cons s rest ih =>
    simp only [List.foldl_cons, ih]
    cases h : s.href with
    | none =>
      simp [checkStep, entryOf, h]
    | some url =>
      simp only [checkStep, entryOf, h]
      by_cases hmem : prev.any (fun prevEntry => url == prevEntry.url) = true
      · simp [hmem, entryOf, h, List.filterMap_cons, List.filter_cons, isNew]
      · simp [hmem, entryOf, h, List.filterMap_cons, List.filter_cons, isNew]

theorem checkEach_eq (conf : ScrapeConfig) (prev : List CachedLink)
    (results : List Elem) :
    checkEach conf prev results
      = (results.filterMap (entryOf conf),
         (results.filterMap (entryOf conf)).filter (isNew prev)) := by
  simpa using checkStep_foldl conf prev results ([], [])

/-- The loop's newness test is non-membership of the entry's URL among the
previous entries' URLs. -/
theorem isNew_eq_decide (prev : List CachedLink) (e : CachedLink) :
    isNew prev e = decide (e.url ∉ prev.map CachedLink.url) := by
  rw [Bool.eq_iff_iff]
  simp only [isNew, Bool.not_eq_true', List.any_eq_false, beq_iff_eq, decide_eq_true_eq]
  constructor
  · intro h hmem
    obtain ⟨x, hx, hxu⟩ := List.mem_map.mp hmem
    exact (h x hx) hxu.symm
  · intro h x hx heq
    exact h (List.mem_map.mpr ⟨x, hx, heq.symm⟩)

/-- No entry of `prev` has a URL outside `prev`'s URLs. -/
theorem filter_not_mem_self (prev : List CachedLink) :
    prev.filter (fun e => decide (e.url ∉ prev.map CachedLink.url)) = [] := by
  rw [List.filter_eq_nil_iff]
  intro a ha
  simp only [decide_eq_true_eq, Decidable.not_not, Bool.not_eq_true]
  exact List.mem_map.mpr ⟨a, ha, rfl⟩

/-- The news returned by `daemon.go`'s `check` are exactly the entries of
the returned current list whose URL is not among the previous URLs. -/
theorem daemon_check_news_filter (conf : ScrapeConfig)
    (res : DaemonGo.GetResult (List Elem)) (prev : List CachedLink) :
    (DaemonGo.check conf res prev).2
      = ((DaemonGo.check conf res prev).1).filter
          (fun e => decide (e.url ∉ prev.map CachedLink.url)) := by
  have hfun : (fun e => decide (e.url ∉ prev.map CachedLink.url)) = isNew prev :=
    funext fun e => (isNew_eq_decide prev e).symm
  cases res with
  | err => simpa [DaemonGo.check] using (filter_not_mem_self prev).symm
  | resp status body =>
    by_cases hs : status = 200
    · subst hs
      cases body with
      | none => simpa [DaemonGo.check] using (filter_not_mem_self prev).symm
      | some results =>
        by_cases hlen : results.length = 0
        · simpa [DaemonGo.check, hlen] using (filter_not_mem_self prev).symm
        · rw [hfun]
          simp [DaemonGo.check, hlen, checkEach_eq]
    · simpa [DaemonGo.check, hs] using (filter_not_mem_self prev).symm

/-- The news returned by part_000's `check` are exactly the entries of the
returned current list whose URL is not among the previous URLs. -/
theorem part000_check_news_filter (conf : ScrapeConfig)
    (doc? : Option (List Elem)) (prev : List CachedLink) :
    (Part000.check conf doc? prev).2
      = ((Part000.check conf doc? prev).1).filter
          (fun e => decide (e.url ∉ prev.map CachedLink.url)) := by
  have hfun : (fun e => decide (e.url ∉ prev.map CachedLink.url)) = isNew prev :=
    funext fun e => (isNew_eq_decide prev e).symm
  cases doc? with
  | none => simpa [Part000.check] using (filter_not_mem_self prev).symm
  | some results =>
    by_cases hlen : results.length = 0
    · simpa [Part000.check, hlen] using (filter_not_mem_self prev).symm
    · rw [hfun]
      simp [Part000.check, hlen, checkEach_eq]

/-- C1: for every pair of link sequences (current, previous), in both
source variants, the diff computed inside `check` returns exactly the
entries of the current list whose URL string does not appear among the
URLs of the previous list, compared by exact case-sensitive string
equality with no normalization, in the same relative order as in the
current list (a `List.filter` of it). -/
theorem c1_diff_new_by_url (conf : ScrapeConfig)
    (res : DaemonGo.GetResult (List Elem)) (doc? : Option (List Elem))
    (prev : List CachedLink) :
    (DaemonGo.check conf res prev).2
        = ((DaemonGo.check conf res prev).1).filter
            (fun e => decide (e.url ∉ prev.map CachedLink.url))
      ∧ (Part000.check conf doc? prev).2
        = ((Part000.check conf doc? prev).1).filter
            (fun e => decide (e.url ∉ prev.map CachedLink.url)) :=
  ⟨daemon_check_news_filter conf res prev, part000_check_news_filter conf doc? prev⟩

/-! ### C2: failed polls preserve the cache -/

/-- A failed poll (transport error, non-200 status, parse failure, or
empty selector match) makes `daemon.go`'s `check` return the previous
cache and no news. -/
theorem daemon_pollFails_check (conf : ScrapeConfig)
    (res : DaemonGo.GetResult (List Elem)) (prev : List CachedLink)
    (h : DaemonGo.pollFails res = true) :
    DaemonGo.check conf res prev = (prev, []) := by
  cases res with
  | err => rfl
  | resp status body =>
    simp only [DaemonGo.pollFails] at h
    rcases Bool.or_eq_true _ _ |>.mp h with hs | hb
    · have hneq : status ≠ 200 := by simpa using hs
      simp [DaemonGo.check, hneq]
    · cases body with
      | none => by_cases hs : status = 200 <;> simp [DaemonGo.check, hs]
      | some results =>
        cases results with
        | nil => by_cases hs : status = 200 <;> simp [DaemonGo.check, hs]
        | cons a l => simp at hb

/-- A failed poll makes part_000's `check` return the previous cache and
no news. -/
theorem part000_pollFails_check (conf : ScrapeConfig)
    (doc? : Option (List Elem)) (prev : List CachedLink)
    (h : Part000.pollFails doc? = true) :
    Part000.check conf doc? prev = (prev, []) := by
  cases doc? with
  | none => rfl
  | some results =>
    cases results with
    | nil => simp [Part000.check]
    | cons a l => simp [Part000.pollFails] at h

/-- When `check` reports no news and an unchanged cache, a `daemon.go`
tick changes nothing and sends nothing. -/
theorem daemon_tick_no_news {U : Type} (conf : ScrapeConfig)
    (env : DaemonGo.TickEnv U) (cache : List CachedLink) (notfirst : Bool)
    (h : DaemonGo.check conf env.fetch cache = (cache, [])) :
    DaemonGo.tick conf env cache notfirst
      = ⟨cache, notfirst, [], (env.parseURL conf.monitorURL).isSome,
         (env.parseURL conf.monitorURL).isSome⟩ := by
  unfold DaemonGo.tick
  cases hb : env.parseURL conf.monitorURL with
  | none => simp
  | some base => simp [h]

/-- When `check` reports no news and an unchanged cache, a part_000 tick
changes nothing and sends nothing. -/
theorem part000_tick_no_news {U : Type} (conf : ScrapeConfig)
    (env : Part000.TickEnv U) (cache : List CachedLink) (notfirst : Bool)
    (h : Part000.check conf env.fetch cache = (cache, [])) :
    Part000.tick conf env cache notfirst
      = ⟨cache, notfirst, [], (env.parseURL conf.monitorURL).isSome,
         (env.parseURL conf.monitorURL).isSome⟩ := by
  unfold Part000.tick
  cases hb : env.parseURL conf.monitorURL with
  | none => simp
  | some base => simp [h]

/-- C2: in both variants, on every poll whose fetch fails (transport
error, non-200 status, or parse error) or whose link selector matches
zero elements, `check` returns the previous cache unchanged together with
an empty new-set; consequently a tick in such an environment sends no
email and leaves cache and priming flag exactly as they were, regardless
of priming state. -/
theorem c2_failed_poll_preserves_cache {U V : Type} (conf : ScrapeConfig)
    (envd : DaemonGo.TickEnv U) (envp : Part000.TickEnv V)
    (prev cache : List CachedLink) (notfirst : Bool)
    (hd : DaemonGo.pollFails envd.fetch = true)
    (hp : Part000.pollFails envp.fetch = true) :
    DaemonGo.check conf envd.fetch prev = (prev, [])
      ∧ Part000.check conf envp.fetch prev = (prev, [])
      ∧ (DaemonGo.tick conf envd cache notfirst).cache = cache
      ∧ (DaemonGo.tick conf envd cache notfirst).sends = []
      ∧ (DaemonGo.tick conf envd cache notfirst).notfirst = notfirst
      ∧ (Part000.tick conf envp cache notfirst).cache = cache
      ∧ (Part000.tick conf envp cache notfirst).sends = []
      ∧ (Part000.tick conf envp cache notfirst).notfirst = notfirst := by
  have hd' := daemon_pollFails_check conf envd.fetch prev hd
  have hp' := part000_pollFails_check conf envp.fetch prev hp
  have htd := daemon_tick_no_news conf envd cache notfirst
    (daemon_pollFails_check conf envd.fetch cache hd)
  have htp := part000_tick_no_news conf envp cache notfirst
    (part000_pollFails_check conf envp.fetch cache hp)
  refine ⟨hd', hp', ?_, ?_, ?_, ?_, ?_, ?_⟩ <;> simp [htd, htp]

/-- C2 witness: a transport error for daemon.go and a failed `get` for
part_000, with a one-entry cache, in both priming states. -/
theorem c2_failed_poll_preserves_cache_witness :
    DaemonGo.pollFails envdErr.fetch = true
      ∧ Part000.pollFails envpErr.fetch = true
      ∧ (DaemonGo.tick conf0 envdErr [⟨"A", "/a"⟩] false).cache = [⟨"A", "/a"⟩]
      ∧ (Part000.tick conf0 envpErr [⟨"A", "/a"⟩] true).cache = [⟨"A", "/a"⟩]
      ∧ (DaemonGo.tick conf0 envdErr [⟨"A", "/a"⟩] true).sends = [] :=
  ⟨rfl, rfl,
   (c2_failed_poll_preserves_cache conf0 envdErr envpErr [⟨"A", "/a"⟩]
     [⟨"A", "/a"⟩] false rfl rfl).2.2.1,
   (c2_failed_poll_preserves_cache conf0 envdErr envpErr [⟨"A", "/a"⟩]
     [⟨"A", "/a"⟩] true rfl rfl).2.2.2.2.2.1,
   (c2_failed_poll_preserves_cache conf0 envdErr envpErr [⟨"A", "/a"⟩]
     [⟨"A", "/a"⟩] true rfl rfl).2.2.2.1⟩

/-! ### C3: priming -/

/-- With an empty previous cache, `daemon.go`'s `check` reports every
current entry as new. -/
theorem daemon_check_nil_prev (conf : ScrapeConfig)
    (res : DaemonGo.GetResult (List Elem)) :
    (DaemonGo.check conf res []).2 = (DaemonGo.check conf res []).1 := by
  simpa using daemon_check_news_filter conf res []

/-- With an empty previous cache, part_000's `check` reports every current
entry as new. -/
theorem part000_check_nil_prev (conf : ScrapeConfig)
    (doc? : Option (List Elem)) :
    (Part000.check conf doc? []).2 = (Part000.check conf doc? []).1 := by
  simpa using part000_check_news_filter conf doc? []

/-- A `daemon.go` tick in the priming state with non-empty news sets the
flag, sends nothing, and installs the extracted current list as cache. -/
theorem daemon_tick_priming {U : Type} (conf : ScrapeConfig)
    (env : DaemonGo.TickEnv U) (cache : List CachedLink) (base : U)
    (hb : env.parseURL conf.monitorURL = some base)
    (hnews : (DaemonGo.check conf env.fetch cache).2 ≠ []) :
    DaemonGo.tick conf env cache false
      = ⟨(DaemonGo.check conf env.fetch cache).1, true, [], true, true⟩ := by
  unfold DaemonGo.tick
  rw [hb]
  simp [List.length_eq_zero, hnews]

/-- A part_000 tick in the priming state with non-empty news sets the
flag, sends nothing, and installs the extracted current list as cache. -/
theorem part000_tick_priming {U : Type} (conf : ScrapeConfig)
    (env : Part000.TickEnv U) (cache : List CachedLink) (base : U)
    (hb : env.parseURL conf.monitorURL = some base)
    (hnews : (Part000.check conf env.fetch cache).2 ≠ []) :
    Part000.tick conf env cache false
      = ⟨(Part000.check conf env.fetch cache).1, true, [], true, true⟩ := by
  unfold Part000.tick
  rw [hb]
  simp [List.length_eq_zero, hnews]

/-- C3: in both variants, starting from the priming state (empty cache,
`notfirst` unset), a poll whose extraction yields at least one link entry
sets `notfirst` (the PRIMING→STEADY transition), sends no email for any of
those entries, and makes the cache exactly the extracted entries. -/
theorem c3_priming_transition {U V : Type} (conf : ScrapeConfig)
    (envd : DaemonGo.TickEnv U) (envp : Part000.TickEnv V)
    (hbd : (envd.parseURL conf.monitorURL).isSome = true)
    (hbp : (envp.parseURL conf.monitorURL).isSome = true)
    (hcd : (DaemonGo.check conf envd.fetch []).1 ≠ [])
    (hcp : (Part000.check conf envp.fetch []).1 ≠ []) :
    (DaemonGo.tick conf envd [] false).notfirst = true
      ∧ (DaemonGo.tick conf envd [] false).sends = []
      ∧ (DaemonGo.tick conf envd [] false).cache
          = (DaemonGo.check conf envd.fetch []).1
      ∧ (Part000.tick conf envp [] false).notfirst = true
      ∧ (Part000.tick conf envp [] false).sends = []
      ∧ (Part000.tick conf envp [] false).cache
          = (Part000.check conf envp.fetch []).1 := by
  obtain ⟨based, hbd'⟩ := Option.isSome_iff_exists.mp hbd
  obtain ⟨basep, hbp'⟩ := Option.isSome_iff_exists.mp hbp
  have hnd : (DaemonGo.check conf envd.fetch []).2 ≠ [] := by
    rw [daemon_check_nil_prev]; exact hcd
  have hnp : (Part000.check conf envp.fetch []).2 ≠ [] := by
    rw [part000_check_nil_prev]; exact hcp
  have htd := daemon_tick_priming conf envd [] based hbd' hnd
  have htp := part000_tick_priming conf envp [] basep hbp' hnp
  refine ⟨?_, ?_, ?_, ?_, ?_, ?_⟩ <;> simp [htd, htp]

/-- C3 witness: a first poll extracting two links primes the cache with
exactly those two entries and sends nothing. -/
theorem c3_priming_transition_witness :
    (envd0.parseURL conf0.monitorURL).isSome = true
      ∧ (DaemonGo.check conf0 envd0.fetch []).1 ≠ []
      ∧ (DaemonGo.tick conf0 envd0 [] false).notfirst = true
      ∧ (DaemonGo.tick conf0 envd0 [] false).sends = []
      ∧ (DaemonGo.tick conf0 envd0 [] false).cache
          = [⟨"One", "/p/1"⟩, ⟨"Two", "/p/2"⟩]
      ∧ (Part000.tick conf0 envp0 [] false).cache
          = [⟨"One", "/p/1"⟩, ⟨"Two", "/p/2"⟩] := by
  have h := c3_priming_transition conf0 envd0 envp0 rfl rfl
    (by decide) (by decide)
  exact ⟨rfl, by decide, h.1, h.2.1, by rw [h.2.2.1]; decide,
    by rw [h.2.2.2.2.2]; decide⟩

/-! ### C4: message format -/

/-- C4 counterexample: the message `daemon.go`'s `sendPage` composes for a
concrete input has no `From` header at all (its first line is the
malformed `Subject ...` line) and no `charset` parameter in its
`Content-Type`, so the claim fails for the daemon.go variant. -/
theorem c4_message_headers_counterexample :
    DaemonGo.sendPage "r@example.org" "T" "http://x/p" "div"
        (.resp 200 (some []))
      = some "Subject T\nTo: r@example.org\nMIME-version: 1.0;\nContent-Type: text/html;\n\n<a href=\"http://x/p\">http://x/p</a>"
      ∧ hasHeader "Subject T\nTo: r@example.org\nMIME-version: 1.0;\nContent-Type: text/html;\n\n<a href=\"http://x/p\">http://x/p</a>" "From" = false
      ∧ containsChars "charset".toList
          "Subject T\nTo: r@example.org\nMIME-version: 1.0;\nContent-Type: text/html;\n\n<a href=\"http://x/p\">http://x/p</a>".toList
        = false :=
  ⟨rfl, by decide, by decide⟩

/-- C4 (amended): every message composed by the part_000 variant's
`sendPage` is exactly `From: gw2e`, `Subject:` the given link title,
`To:` the configured recipient, `Content-Type: text/html; charset=utf-8`,
followed by a body of the link URL, an `<hr>` rule, and the extracted
content, in that order.  (The daemon.go variant omits the `From` header
and the charset, as the counterexample shows.) -/
theorem c4_part000_message_format (link : CachedLink) (conf : ScrapeConfig)
    (doc : Part000.PageDoc) :
    ∃ content, Part000.sendPage link conf (some doc)
      = some ("From: gw2e\nSubject: " ++ link.title ++ "\nTo: " ++ conf.email ++
          "\nMIME-version: 1.0;\nContent-Type: text/html; charset=utf-8\n\n" ++
          link.url ++ "<hr>" ++ content) :=
  ⟨_, rfl⟩

/-! ### C5: content extraction of linked pages -/

/-- The inner-HTML collection loop of both `sendPage`s appends exactly the
extractable fragments, in order. -/
theorem innerHtml_foldl (results : List Elem) (init : List String) :
    results.foldl (fun parts s =>
      match s.innerHtml with
      | none => parts
      | some html => parts ++ [html]) init
      = init ++ results.filterMap Elem.innerHtml := by
  induction results generalizing init with
  | nil => simp
  | cons s rest ih => cases h : s.innerHtml <;> simp [h, ih]

/-- C5: for a successfully fetched linked page, when the filter selector
matches at least one element the content is the matched elements' inner
HTML fragments joined by `"<hr>"` — with the daemon.go variant prefixing
the source URL as the first joined part; when it matches zero elements the
daemon.go variant falls back to a placeholder anchor and the part_000
variant to the full-page HTML; in all these cases a message is composed,
so the send is never aborted. -/
theorem c5_content_extraction (email title url filter : String)
    (results : List Elem) (link : CachedLink) (conf : ScrapeConfig)
    (doc : Part000.PageDoc) :
    (results ≠ [] →
      DaemonGo.sendPage email title url filter (.resp 200 (some results))
        = some ("Subject " ++ title ++ "\nTo: " ++ email ++
            "\nMIME-version: 1.0;\nContent-Type: text/html;\n\n" ++
            String.intercalate "<hr>" (url :: results.filterMap Elem.innerHtml)))
      ∧ DaemonGo.sendPage email title url filter (.resp 200 (some []))
          = some ("Subject " ++ title ++ "\nTo: " ++ email ++
              "\nMIME-version: 1.0;\nContent-Type: text/html;\n\n" ++
              ("<a href=\"" ++ url ++ "\">" ++ url ++ "</a>"))
      ∧ (DaemonGo.sendPage email title url filter (.resp 200 (some results))).isSome = true
      ∧ (doc.filterMatches ≠ [] →
        Part000.sendPage link conf (some doc)
          = some ("From: gw2e\nSubject: " ++ link.title ++ "\nTo: " ++ conf.email ++
              "\nMIME-version: 1.0;\nContent-Type: text/html; charset=utf-8\n\n" ++
              link.url ++ "<hr>" ++
              String.intercalate "<hr>" (doc.filterMatches.filterMap Elem.innerHtml)))
      ∧ (∀ fullHtml, Part000.sendPage link conf (some ⟨[], some fullHtml⟩)
          = some ("From: gw2e\nSubject: " ++ link.title ++ "\nTo: " ++ conf.email ++
              "\nMIME-version: 1.0;\nContent-Type: text/html; charset=utf-8\n\n" ++
              link.url ++ "<hr>" ++ fullHtml))
      ∧ (Part000.sendPage link conf (some doc)).isSome = true := by
  refine ⟨?_, rfl, ?_, ?_, fun fullHtml => rfl, ?_⟩
  · intro h
    simp [DaemonGo.sendPage, List.length_eq_zero, h, innerHtml_foldl]
  · by_cases h : results = []
    · subst h; rfl
    · simp [DaemonGo.sendPage, List.length_eq_zero, h]
  · intro h
    simp [Part000.sendPage, List.length_eq_zero, h, innerHtml_foldl]
  · simp [Part000.sendPage]

/-- C5 witness: one matched content element with inner HTML `<p>x</p>`;
both variants compose the expected message. -/
theorem c5_content_extraction_witness :
    ([eH] : List Elem) ≠ []
      ∧ Part000.PageDoc.filterMatches pd0 ≠ []
      ∧ DaemonGo.sendPage "r@example.org" "T" "http://x/p" "div"
          (.resp 200 (some [eH]))
        = some "Subject T\nTo: r@example.org\nMIME-version: 1.0;\nContent-Type: text/html;\n\nhttp://x/p<hr><p>x</p>"
      ∧ Part000.sendPage ⟨"T", "http://x/p"⟩ conf0 (some pd0)
        = some "From: gw2e\nSubject: T\nTo: r@example.org\nMIME-version: 1.0;\nContent-Type: text/html; charset=utf-8\n\nhttp://x/p<hr><p>x</p>" := by
  have h := c5_content_extraction "r@example.org" "T" "http://x/p" "div"
    [eH] ⟨"T", "http://x/p"⟩ conf0 pd0
  refine ⟨by decide, by decide, ?_, ?_⟩
  · rw [h.1 (by decide)]; decide
  · rw [h.2.2.2.1 (by decide)]; decide

/-! ### C6: elements without href are skipped -/

/-- C6: an element matched by the link selector that has no `href`
attribute contributes to neither the current nor the new set, while the
elements before and after it are processed exactly as if it were absent —
the extraction loop is not aborted. -/
theorem c6_skip_no_href (conf : ScrapeConfig) (prev : List CachedLink)
    (r1 r2 : List Elem) (s : Elem) (h : s.href = none) :
    checkEach conf prev (r1 ++ s :: r2) = checkEach conf prev (r1 ++ r2) := by
  simp [checkEach_eq, List.filterMap_append, List.filterMap_cons, entryOf, h]

/-- C6 witness: dropping the middle href-less element leaves the loop's
result unchanged. -/
theorem c6_skip_no_href_witness :
    Elem.href e0 = none
      ∧ checkEach conf0 [⟨"Old", "/p/9"⟩] [e1, e0, e2]
          = checkEach conf0 [⟨"Old", "/p/9"⟩] [e1, e2] :=
  ⟨rfl, c6_skip_no_href conf0 [⟨"Old", "/p/9"⟩] [e1] [e2] e0 rfl⟩

/-! ### C7: SMTP failures are isolated -/

/-- The daemon.go notification loop accumulates one `SendAttempt` per new
entry whose URL parses, in order. -/
theorem daemon_sendStep_foldl {U : Type} (conf : ScrapeConfig)
    (env : DaemonGo.TickEnv U) (base : U) (news : List CachedLink)
    (acc : List SendAttempt) :
    news.foldl (DaemonGo.sendStep conf env base) acc
      = acc ++ news.filterMap (DaemonGo.sendOf conf env base) := by
  induction news generalizing acc with
  | nil => simp
  | cons n rest ih =>
    cases h : env.parseURL n.url with
    | none => simp [DaemonGo.sendStep, DaemonGo.sendOf, h, ih]
    | some u => simp [DaemonGo.sendStep, DaemonGo.sendOf, h, ih]

/-- The part_000 notification loop accumulates one `SendAttempt` per new
entry whose URL parses, in order. -/
theorem part000_sendStep_foldl {U : Type} (conf : ScrapeConfig)
    (env : Part000.TickEnv U) (base : U) (news : List CachedLink)
    (acc : List SendAttempt) :
    news.foldl (Part000.sendStep conf env base) acc
      = acc ++ news.filterMap (Part000.sendOf conf env base) := by
  induction news generalizing acc with
  | nil => simp
  | cons n rest ih =>
    cases h : env.parseURL n.url with
    | none => simp [Part000.sendStep, Part000.sendOf, h, ih]
    | some u => simp [Part000.sendStep, Part000.sendOf, h, ih]

/-- A daemon.go tick in the STEADY state installs the extracted current
list as cache and attempts a send for each new entry. -/
theorem daemon_tick_steady {U : Type} (conf : ScrapeConfig)
    (env : DaemonGo.TickEnv U) (cache : List CachedLink) (base : U)
    (hb : env.parseURL conf.monitorURL = some base) :
    DaemonGo.tick conf env cache true
      = ⟨(DaemonGo.check conf env.fetch cache).1, true,
         (DaemonGo.check conf env.fetch cache).2.filterMap
           (DaemonGo.sendOf conf env base),
         true, true⟩ := by
  unfold DaemonGo.tick
  rw [hb]
  by_cases h : (DaemonGo.check conf env.fetch cache).2.length ≠ 0
  · simp [h, daemon_sendStep_foldl]
  · simp only [not_not] at h
    have hnil : (DaemonGo.check conf env.fetch cache).2 = [] :=
      List.length_eq_zero.mp h
    simp [h, hnil]

/-- A part_000 tick in the STEADY state installs the extracted current
list as cache and attempts a send for each new entry. -/
theorem part000_tick_steady {U : Type} (conf : ScrapeConfig)
    (env : Part000.TickEnv U) (cache : List CachedLink) (base : U)
    (hb : env.parseURL conf.monitorURL = some base) :
    Part000.tick conf env cache true
      = ⟨(Part000.check conf env.fetch cache).1, true,
         (Part000.check conf env.fetch cache).2.filterMap
           (Part000.sendOf conf env base),
         true, true⟩ := by
  unfold Part000.tick
  rw [hb]
  by_cases h : (Part000.check conf env.fetch cache).2.length ≠ 0
  · simp [h, part000_sendStep_foldl]
  · simp only [not_not] at h
    have hnil : (Part000.check conf env.fetch cache).2 = [] :=
      List.length_eq_zero.mp h
    simp [h, hnil]

/-- C7: in the STEADY state, the sequence of `sendPage` invocations — the
subject, target URL and composed message of each — is exactly one per new
entry whose URL parses, in order, and is given by an expression in which
the SMTP oracle does not occur: a failed SMTP send for one entry (whose
outcome `sendPage` only logs) cannot prevent, repeat, or reorder the send
attempts for the remaining entries, in either variant, and the tick is a
total function (the process does not crash). -/
theorem c7_send_failure_isolated {U V : Type} (conf : ScrapeConfig)
    (envd : DaemonGo.TickEnv U) (envp : Part000.TickEnv V)
    (cache : List CachedLink) (based : U) (basep : V)
    (hbd : envd.parseURL conf.monitorURL = some based)
    (hbp : envp.parseURL conf.monitorURL = some basep) :
    (DaemonGo.tick conf envd cache true).sends.map
        (fun a => (a.subject, a.url, a.message))
      = (DaemonGo.check conf envd.fetch cache).2.filterMap
          (fun n => (envd.parseURL n.url).map (fun u =>
            (conf.tag ++ " | " ++ n.title, envd.resolve based u,
             DaemonGo.sendPage conf.email (conf.tag ++ " | " ++ n.title)
               (envd.resolve based u) conf.filter
               (envd.pageFetch (envd.resolve based u)))))
      ∧ (Part000.tick conf envp cache true).sends.map
          (fun a => (a.subject, a.url, a.message))
        = (Part000.check conf envp.fetch cache).2.filterMap
            (fun n => (envp.parseURL n.url).map (fun u =>
              (conf.tag ++ " | " ++ n.title, envp.resolve basep u,
               Part000.sendPage
                 ⟨conf.tag ++ " | " ++ n.title, envp.resolve basep u⟩ conf
                 (envp.pageFetch (envp.resolve basep u))))) := by
  constructor
  · rw [daemon_tick_steady conf envd cache based hbd]
    simp only [List.map_filterMap]
    congr 1
    funext n
    cases h : envd.parseURL n.url with
    | none => simp [DaemonGo.sendOf, h]
    | some u => simp [DaemonGo.sendOf, h]
  · rw [part000_tick_steady conf envp cache basep hbp]
    simp only [List.map_filterMap]
    congr 1
    funext n
    cases h : envp.parseURL n.url with
    | none => simp [Part000.sendOf, h]
    | some u => simp [Part000.sendOf, h]

/-- C7 witness: three new entries with the SMTP send of the second
failing; all three sends are still attempted, in order, in both
variants. -/
theorem c7_send_failure_isolated_witness :
    envd3.parseURL conf0.monitorURL = some "http://m/"
      ∧ (DaemonGo.tick conf0 envd3 [] true).sends.map
          (fun a => (a.subject, a.url, a.message))
        = [("tag | One", "http://m//p/1",
            some "Subject tag | One\nTo: r@example.org\nMIME-version: 1.0;\nContent-Type: text/html;\n\nhttp://m//p/1<hr><p>x</p>"),
           ("tag | Two", "http://m//p/2",
            some "Subject tag | Two\nTo: r@example.org\nMIME-version: 1.0;\nContent-Type: text/html;\n\nhttp://m//p/2<hr><p>x</p>"),
           ("tag | Three", "http://m//p/3",
            some "Subject tag | Three\nTo: r@example.org\nMIME-version: 1.0;\nContent-Type: text/html;\n\nhttp://m//p/3<hr><p>x</p>")]
      ∧ (DaemonGo.tick conf0 envd3 [] true).sends.map SendAttempt.delivered
        = [true, false, true]
      ∧ (Part000.tick conf0 envp3 [] true).sends.map SendAttempt.delivered
        = [true, false, true] := by
  have h := c7_send_failure_isolated conf0 envd3 envp3 [] "http://m/" "http://m/"
    rfl rfl
  refine ⟨rfl, ?_, by decide, by decide⟩
  rw [h.1]; decide

/-! ### C8: behaviour on monitor-URL parse failure -/

/-- C8 counterexample: at a tick where parsing the monitor URL fails,
BOTH source variants skip the sleep (`slept = false`), refuting the
claim that exactly one variant busy-loops while the other sleeps before
retrying. -/
theorem c8_sleep_skipped_counterexample :
    (DaemonGo.tick conf0 envdNoParse [] false).slept = false
      ∧ (Part000.tick conf0 envpNoParse [] false).slept = false :=
  ⟨rfl, rfl⟩

/-- C8 (amended): on every tick where parsing the configured monitor URL
fails, both variants log and retry on the next tick without fetching
(`polled = false`), leave cache and priming state unchanged and send
nothing — and both `continue` without invoking the sleep
(`slept = false`), busy-looping. -/
theorem c8_parse_failure_busy_loop {U V : Type} (conf : ScrapeConfig)
    (envd : DaemonGo.TickEnv U) (envp : Part000.TickEnv V)
    (cache : List CachedLink) (notfirst : Bool)
    (hd : envd.parseURL conf.monitorURL = none)
    (hp : envp.parseURL conf.monitorURL = none) :
    DaemonGo.tick conf envd cache notfirst
        = ⟨cache, notfirst, [], false, false⟩
      ∧ Part000.tick conf envp cache notfirst
        = ⟨cache, notfirst, [], false, false⟩ :=
  ⟨by simp [DaemonGo.tick, hd], by simp [Part000.tick, hp]⟩

/-- C8 witness: a concrete tick with an unparseable monitor URL leaves the
one-entry cache and the priming flag unchanged, fetches nothing, sends
nothing, and skips the sleep in both variants. -/
theorem c8_parse_failure_busy_loop_witness :
    envdNoParse.parseURL conf0.monitorURL = none
      ∧ DaemonGo.tick conf0 envdNoParse [⟨"A", "/a"⟩] true
        = ⟨[⟨"A", "/a"⟩], true, [], false, false⟩
      ∧ Part000.tick conf0 envpNoParse [⟨"A", "/a"⟩] true
        = ⟨[⟨"A", "/a"⟩], true, [], false, false⟩ :=
  ⟨rfl,
   (c8_parse_failure_busy_loop conf0 envdNoParse envpNoParse [⟨"A", "/a"⟩] true
     rfl rfl).1,
   (c8_parse_failure_busy_loop conf0 envdNoParse envpNoParse [⟨"A", "/a"⟩] true
     rfl rfl).2⟩

/-! ### C9: a page whose matched elements all lack href empties the
cache -/

/-- C9: when the link selector matches at least one element but every
matched element lacks `href`, `check` returns an empty current set and an
empty new set in both variants, so the tick replaces the cache by the
empty sequence rather than preserving it; and with an empty cache the
following poll reports every extracted link as new. -/
theorem c9_all_no_href_empties_cache {U : Type} (conf : ScrapeConfig)
    (env : DaemonGo.TickEnv U) (cache prev : List CachedLink)
    (notfirst : Bool) (results : List Elem)
    (h1 : results ≠ []) (h2 : ∀ s ∈ results, s.href = none)
    (hf : env.fetch = .resp 200 (some results))
    (hb : (env.parseURL conf.monitorURL).isSome = true) :
    DaemonGo.check conf (.resp 200 (some results)) prev = ([], [])
      ∧ Part000.check conf (some results) prev = ([], [])
      ∧ (DaemonGo.tick conf env cache notfirst).cache = []
      ∧ ∀ results2 : List Elem,
          (checkEach conf [] results2).2 = (checkEach conf [] results2).1 := by
  have hfm : results.filterMap (entryOf conf) = [] := by
    rw [List.filterMap_eq_nil_iff]
    intro s hs
    simp [entryOf, h2 s hs]
  have hcd : DaemonGo.check conf (.resp 200 (some results)) prev = ([], []) := by
    simp [DaemonGo.check, List.length_eq_zero, h1, checkEach_eq, hfm]
  have hcp : Part000.check conf (some results) prev = ([], []) := by
    simp [Part000.check, List.length_eq_zero, h1, checkEach_eq, hfm]
  refine ⟨hcd, hcp, ?_, ?_⟩
  · obtain ⟨base, hb'⟩ := Option.isSome_iff_exists.mp hb
    have hck : DaemonGo.check conf env.fetch cache = ([], []) := by
      rw [hf]
      simp [DaemonGo.check, List.length_eq_zero, h1, checkEach_eq, hfm]
    unfold DaemonGo.tick
    rw [hb']
    simp [hck]
  · intro results2
    rw [checkEach_eq]
    exact List.filter_eq_self.mpr (fun a ha => by simp [isNew])

/-- C9 witness: a single matched element without `href` empties a
previously non-empty cache. -/
theorem c9_all_no_href_empties_cache_witness :
    ([e0] : List Elem) ≠ []
      ∧ (∀ s ∈ ([e0] : List Elem), s.href = none)
      ∧ envdNoHref.fetch = .resp 200 (some [e0])
      ∧ DaemonGo.check conf0 (.resp 200 (some [e0])) [⟨"A", "/a"⟩] = ([], [])
      ∧ (DaemonGo.tick conf0 envdNoHref [⟨"A", "/a"⟩] true).cache = [] := by
  have h := c9_all_no_href_empties_cache conf0 envdNoHref [⟨"A", "/a"⟩]
    [⟨"A", "/a"⟩] true [e0] (by decide) (by decide) rfl rfl
  exact ⟨by decide, by decide, rfl, h.1, h.2.2.1⟩

/-! ### C10: email subjects -/

/-- C10: every email sent in the STEADY state has as subject the
configured tag, the literal string `" | "`, and the entry's extracted
title, concatenated in that order, in both variants; and no such subject
can equal the bare entry title. -/
theorem c10_subject_is_tag_bar_title {U V : Type} (conf : ScrapeConfig)
    (envd : DaemonGo.TickEnv U) (envp : Part000.TickEnv V)
    (cache : List CachedLink) (based : U) (basep : V)
    (hbd : envd.parseURL conf.monitorURL = some based)
    (hbp : envp.parseURL conf.monitorURL = some basep) :
    (DaemonGo.tick conf envd cache true).sends.map SendAttempt.subject
      = (DaemonGo.check conf envd.fetch cache).2.filterMap
          (fun n => (envd.parseURL n.url).map
            (fun _ => conf.tag ++ " | " ++ n.title))
      ∧ (Part000.tick conf envp cache true).sends.map SendAttempt.subject
        = (Part000.check conf envp.fetch cache).2.filterMap
            (fun n => (envp.parseURL n.url).map
              (fun _ => conf.tag ++ " | " ++ n.title))
      ∧ ∀ n : CachedLink, conf.tag ++ " | " ++ n.title ≠ n.title := by
  refine ⟨?_, ?_, ?_⟩
  · rw [daemon_tick_steady conf envd cache based hbd]
    simp only [List.map_filterMap]
    congr 1
    funext n
    cases h : envd.parseURL n.url with
    | none => simp [DaemonGo.sendOf, h]
    | some u => simp [DaemonGo.sendOf, h]
  · rw [part000_tick_steady conf envp cache basep hbp]
    simp only [List.map_filterMap]
    congr 1
    funext n
    cases h : envp.parseURL n.url with
    | none => simp [Part000.sendOf, h]
    | some u => simp [Part000.sendOf, h]
  · intro n heq
    have hlen := congrArg String.length heq
    have h3 : (" | " : String).length = 3 := rfl
    rw [String.length_append, String.length_append, h3] at hlen
    omega

/-- C10 witness: three steady-state sends carry subjects
`tag | <title>`. -/
theorem c10_subject_is_tag_bar_title_witness :
    envd3.parseURL conf0.monitorURL = some "http://m/"
      ∧ (DaemonGo.tick conf0 envd3 [] true).sends.map SendAttempt.subject
        = ["tag | One", "tag | Two", "tag | Three"]
      ∧ (Part000.tick conf0 envp3 [] true).sends.map SendAttempt.subject
        = ["tag | One", "tag | Two", "tag | Three"]
      ∧ conf0.tag ++ " | " ++ "One" ≠ "One" := by
  have h := c10_subject_is_tag_bar_title conf0 envd3 envp3 [] "http://m/"
    "http://m/" rfl rfl
  refine ⟨rfl, ?_, ?_, h.2.2 ⟨"One", "/p/1"⟩⟩
  · rw [h.1]; decide
  · rw [h.2.1]; decide
